import Mathlib

/-!
Shallow embedding of the Socratic Stress Test (SST) core:
`sst/core/self_test.py` (text heuristics), `sst/core/classification.py`
(epistemic state machine) and `sst/core/protocol.py` (seven-stage pipeline).
Python floats are modelled as rationals; Python exceptions as `Except`.
-/

namespace SST

/-- The three epistemic states of `Classification.STATES`. -/
inductive EpistemicState where
  | FACT
  | HYP
  | UNK
deriving DecidableEq, Repr

open EpistemicState

/-- Numeric values of the states (`Classification.STATES`): FACT 1, HYP 0, UNK -1. -/
def stateValue : EpistemicState → Int
  | FACT => 1
  | HYP => 0
  | UNK => -1

/-- `Classification.DOWNGRADE_MAP`: FACT -> HYP -> UNK, UNK stays. -/
def downgradeMap : EpistemicState → EpistemicState
  | FACT => HYP
  | HYP => UNK
  | UNK => UNK

/-- `Classification.UPGRADE_MAP`: UNK -> HYP -> FACT, FACT stays. -/
def upgradeMap : EpistemicState → EpistemicState
  | UNK => HYP
  | HYP => FACT
  | FACT => FACT

/-- One entry of `state_history`: `{'from': ..., 'to': ..., 'reason': ...}`.
The `from`/`to` fields always hold valid state strings in the code, so they
are modelled by `EpistemicState` directly. -/
structure TransitionRecord where
  frm : EpistemicState
  dst : EpistemicState
  reason : String
deriving DecidableEq, Repr

/-- The mutable fields of a `Classification` object. -/
structure Classification where
  currentState : Option EpistemicState := none
  stateHistory : List TransitionRecord := []
  downgradeReasons : List String := []
deriving DecidableEq, Repr

/-- `Classification.__init__`: no state set, empty history and reasons. -/
def Classification.init : Classification := {}

/-- Parse a state string the way `state not in self.states` validates it. -/
def stateOfString : String → Option EpistemicState
  | "FACT" => some FACT
  | "HYP" => some HYP
  | "UNK" => some UNK
  | _ => none

/-- The success path of `Classification.set_state` (state already validated):
record a history entry whenever a prior state existed, then overwrite
`current_state`. -/
def Classification.setStateOk (c : Classification) (s : EpistemicState) : Classification :=
  { c with
    currentState := some s
    stateHistory :=
      match c.currentState with
      | some old => c.stateHistory ++ [⟨old, s, "manual_set"⟩]
      | none => c.stateHistory }

/-- `Classification.set_state`: raises `ValueError` on an invalid state string,
otherwise records and sets. -/
def Classification.set_state (c : Classification) (state : String) :
    Except String Classification :=
  match stateOfString state with
  | none => .error "Invalid state. Must be one of: FACT, HYP, UNK."
  | some s => .ok (c.setStateOk s)

/-- The body of `Classification.downgrade_state` after the not-set check:
move along `DOWNGRADE_MAP`, record history and the optional reason only when
the state actually changed. The optional reason is modelled by
`Option String` holding the given string; Python's `if reason:` truthiness
would also treat an explicit empty string like `None`, a case no caller in
the repository exercises. -/
def Classification.downgradeCore (c : Classification) (old : EpistemicState)
    (reason : Option String) : Classification :=
  let new := downgradeMap old
  if old ≠ new then
    { c with
      currentState := some new
      stateHistory := c.stateHistory ++ [⟨old, new, reason.getD "downgrade"⟩]
      downgradeReasons :=
        match reason with
        | some r => c.downgradeReasons ++ [r]
        | none => c.downgradeReasons }
  else
    { c with currentState := some new }

/-- `Classification.downgrade_state`: `ValueError` if no current state;
returns the new state (and the updated object). -/
def Classification.downgrade_state (c : Classification) (reason : Option String) :
    Except String (EpistemicState × Classification) :=
  match c.currentState with
  | none => .error "Current state is not set."
  | some old => .ok (downgradeMap old, c.downgradeCore old reason)

/-- The body of `Classification.upgrade_state` after the not-set check:
move along `UPGRADE_MAP`, record history only when the state changed
(`upgrade_state` never touches `downgrade_reasons`). -/
def Classification.upgradeCore (c : Classification) (old : EpistemicState)
    (reason : Option String) : Classification :=
  let new := upgradeMap old
  if old ≠ new then
    { c with
      currentState := some new
      stateHistory := c.stateHistory ++ [⟨old, new, reason.getD "upgrade"⟩] }
  else
    { c with currentState := some new }

/-- `Classification.upgrade_state`: `ValueError` if no current state. -/
def Classification.upgrade_state (c : Classification) (reason : Option String) :
    Except String (EpistemicState × Classification) :=
  match c.currentState with
  | none => .error "Current state is not set."
  | some old => .ok (upgradeMap old, c.upgradeCore old reason)

/-! Text heuristics of `sst/core/self_test.py` (class `SelfTest`). -/

/-- `SelfTest.ASSUMPTION_INDICATORS`. -/
def ASSUMPTION_INDICATORS : List String :=
  ["is", "are", "was", "were", "will", "must", "should",
   "always", "never", "all", "none", "every", "no one",
   "obviously", "clearly", "certainly", "definitely"]

/-- `SelfTest.UNCERTAINTY_INDICATORS`. -/
def UNCERTAINTY_INDICATORS : List String :=
  ["might", "may", "could", "perhaps", "possibly", "probably",
   "seems", "appears", "suggests", "indicates", "uncertain",
   "unknown", "unclear", "ambiguous", "questionable"]

/-- `SelfTest.HEDGING_WORDS`. -/
def HEDGING_WORDS : List String :=
  ["some", "many", "few", "often", "sometimes", "usually",
   "generally", "typically", "tends to", "in some cases"]

/-- `SelfTest.CONTRADICTORY_PAIRS`. -/
def CONTRADICTORY_PAIRS : List (String × String) :=
  [("always", "never"), ("all", "none"), ("increase", "decrease"),
   ("more", "less"), ("true", "false"), ("yes", "no")]

/-- A regex word character (`\w`): the inputs here are ASCII, so
alphanumeric or underscore. -/
def isWordChar (c : Char) : Bool := c.isAlphanum || c == '_'

/-- `re.search(r'\b' + re.escape(pat) + r'\b', text)` for a literal pattern
whose first and last characters are word characters (true of every word in
the lexicons above): some occurrence of `pat` in `text` is delimited by
non-word characters (or the ends of the text). -/
def wordMatch (pat text : List Char) : Bool :=
  (List.range (text.length + 1)).any fun i =>
    List.isPrefixOf pat (text.drop i)
    && (i == 0 || !isWordChar (text.getD (i - 1) ' '))
    && !isWordChar (text.getD (i + pat.length) ' ')

/-- Python's substring test `pat in text`. -/
def substrCheck (pat text : List Char) : Bool :=
  (List.range (text.length + 1)).any fun i => List.isPrefixOf pat (text.drop i)

/-- Lowercase a string into its character list (`item.lower()`). -/
def lowerChars (s : String) : List Char := s.toList.map Char.toLower

/-- `SelfTest.is_assumption`: an assumption indicator matches whole-word in
the lowercased item, or the item is a declarative sentence (length > 5 with
no `?` or `!`). Falsy input gives `False`. -/
def isAssumption (item : String) : Bool :=
  if item.isEmpty then false
  else
    let lo := lowerChars item
    if ASSUMPTION_INDICATORS.any (fun w => wordMatch w.toList lo) then true
    else if item.length > 5 && !(item.toList.any (fun ch => ch == '?' || ch == '!')) then true
    else false

/-- `SelfTest.is_unknown`: an uncertainty indicator matches whole-word in the
lowercased item, or the item contains `?`. Falsy input gives `False`. -/
def isUnknown (item : String) : Bool :=
  if item.isEmpty then false
  else
    let lo := lowerChars item
    if UNCERTAINTY_INDICATORS.any (fun w => wordMatch w.toList lo) then true
    else if item.toList.any (fun ch => ch == '?') then true
    else false

/-- `SelfTest.calculate_coherence`: empty assumption returns 0.0; otherwise
start at 1.0, subtract 0.1 per matched hedging word, 0.3 per contradictory
pair fully contained (as substrings) in the assumption, add 0.1 if the
assumption is longer than 50 characters, then for non-empty context subtract
0.2 per pair whose first member is in the assumption and second member in
the concatenated context; finally clamp to [0, 1]. -/
def calculateCoherence (assumption : String) (data : List String) : ℚ :=
  if assumption.isEmpty then 0
  else
    let lo := lowerChars assumption
    let hedgingCount := (HEDGING_WORDS.filter (fun w => wordMatch w.toList lo)).length
    let score : ℚ := 1 - hedgingCount * 0.1
    let score := CONTRADICTORY_PAIRS.foldl
      (fun s p => if substrCheck p.1.toList lo && substrCheck p.2.toList lo then s - 0.3 else s)
      score
    let score := if assumption.length > 50 then score + 0.1 else score
    let score :=
      if data.isEmpty then score
      else
        let ctx := lowerChars (String.intercalate " " data)
        CONTRADICTORY_PAIRS.foldl
          (fun s p => if substrCheck p.1.toList lo && substrCheck p.2.toList ctx then s - 0.2 else s)
          score
    max 0 (min 1 score)

/-- The coherence computation exactly as claim C2 words it, for comparison
with `calculateCoherence`: start from 1.0, subtract 0.1 per matched hedging
word, 0.3 per contradictory pair whose both members occur in the assumption,
add 0.1 when the length exceeds 50, then for a non-empty context subtract
0.2 per pair with one member in the assumption and the other in the
concatenated context, and clamp to [0, 1] exactly once at the end — with no
special case for any input. -/
def coherenceClaimFormula (assumption : String) (data : List String) : ℚ :=
  let lo := lowerChars assumption
  let hedgingCount := (HEDGING_WORDS.filter (fun w => wordMatch w.toList lo)).length
  let score : ℚ := 1 - hedgingCount * 0.1
  let score := CONTRADICTORY_PAIRS.foldl
    (fun s p => if substrCheck p.1.toList lo && substrCheck p.2.toList lo then s - 0.3 else s)
    score
  let score := if assumption.length > 50 then score + 0.1 else score
  let score :=
    if data.isEmpty then score
    else
      let ctx := lowerChars (String.intercalate " " data)
      CONTRADICTORY_PAIRS.foldl
        (fun s p => if substrCheck p.1.toList lo && substrCheck p.2.toList ctx then s - 0.2 else s)
        score
  max 0 (min 1 score)

/-- The fields of the `SelfTest.analyze_statement` result bundle that the
rest of the system consumes. -/
structure Analysis where
  stmtIsAssumption : Bool
  hasUncertainty : Bool
  assumptions : List String
  coherenceScore : ℚ
deriving DecidableEq, Repr

/-- `SelfTest.analyze_statement` on a fresh `SelfTest`: extract assumptions
from the single-element list `[statement]`, evaluate each one's coherence
against the context `[statement]`, and average (0.5 when no assumption was
extracted). -/
def analyzeStatement (statement : String) : Analysis :=
  let assumptions := [statement].filter isAssumption
  let cohDetails := assumptions.map fun a => (a, calculateCoherence a [statement])
  let avg : ℚ :=
    if cohDetails.isEmpty then 0.5
    else (cohDetails.map Prod.snd).sum / cohDetails.length
  { stmtIsAssumption := isAssumption statement
    hasUncertainty := isUnknown statement
    assumptions := assumptions
    coherenceScore := avg }

/-- The threshold rule shared by `classify_from_scores` and
`evaluate_with_self_test`: FACT iff effective ≥ 85 with sources, else HYP
iff effective ≥ 50, else UNK. -/
def classifyLabel (effective : ℚ) (hasSources : Bool) : EpistemicState :=
  if effective ≥ 85 ∧ hasSources then FACT
  else if effective ≥ 50 then HYP
  else UNK

/-- `Classification.classify_from_scores`: multiply confidence by coherence,
apply the threshold rule, `set_state` the label (always a valid literal) and
return it. -/
def Classification.classify_from_scores (c : Classification) (confidence : ℚ)
    (hasSources : Bool) (coherenceScore : ℚ) : EpistemicState × Classification :=
  let effective := confidence * coherenceScore
  let label := classifyLabel effective hasSources
  (label, c.setStateOk label)

/-- `downgrade_state` as invoked inside `evaluate_with_self_test`, where a
state has always just been set: the `none` branch is unreachable there
(Python would raise `ValueError`). -/
def Classification.downgradeOk (c : Classification) (reason : Option String) :
    Classification :=
  match c.currentState with
  | none => c
  | some old => c.downgradeCore old reason

/-- The fields of the `Classification.evaluate_with_self_test` result
dictionary. -/
structure EvalResult where
  statement : String
  initialConfidence : ℚ
  adjustedConfidence : ℚ
  coherenceFactor : ℚ
  finalState : Option EpistemicState
  stateHistory : List TransitionRecord
  downgradeReasons : List String
deriving DecidableEq, Repr

/-- `Classification.evaluate_with_self_test`: fresh `SelfTest` analysis,
adjusted confidence, initial state by the 85/50 thresholds, then the three
sequential downgrade checks (uncertainty; still-FACT without sources; low
coherence). -/
def Classification.evaluate_with_self_test (c : Classification) (statement : String)
    (sources : List String) (initialConfidence : ℚ) : EvalResult × Classification :=
  let analysis := analyzeStatement statement
  let coherenceFactor := analysis.coherenceScore
  let adjustedConfidence := initialConfidence * coherenceFactor
  let hasSources := !sources.isEmpty
  -- the code spells out the same 85/50 if-chain as classify_from_scores
  let c1 := c.setStateOk (classifyLabel adjustedConfidence hasSources)
  let c2 :=
    if analysis.hasUncertainty then c1.downgradeOk (some "Contains uncertainty indicators")
    else c1
  let c3 :=
    if c2.currentState = some FACT ∧ ¬hasSources then
      c2.downgradeOk (some "FACT claim lacks sources")
    else c2
  let c4 :=
    if coherenceFactor < 0.5 then c3.downgradeOk (some "Low coherence score")
    else c3
  (⟨statement, initialConfidence, adjustedConfidence, coherenceFactor,
    c4.currentState, c4.stateHistory, c4.downgradeReasons⟩, c4)

/-! Pipeline of `sst/core/protocol.py` (class `SSTProtocol`). Prompt
strategies are external report formatters: they render text consumed by
nobody downstream, so they are not part of the state modelled here. -/

/-- The mutable `SelfTest` fields the pipeline steps read and write. -/
structure SelfTestState where
  assumptions : List String := []
  coherences : List (String × ℚ) := []
deriving DecidableEq, Repr

/-- `SelfTest.extract_assumptions`: keep the items satisfying
`is_assumption`. -/
def SelfTestState.extractAssumptions (st : SelfTestState) (data : List String) :
    SelfTestState :=
  { st with assumptions := data.filter isAssumption }

/-- `SelfTest.evaluate_coherence`: score each previously extracted assumption
against the context. -/
def SelfTestState.evaluateCoherence (st : SelfTestState) (data : List String) :
    SelfTestState :=
  { st with coherences := st.assumptions.map fun a => (a, calculateCoherence a data) }

/-- `SelfTest.get_coherence_score`: mean of the last evaluation, 0.5 when
none. -/
def SelfTestState.getCoherenceScore (st : SelfTestState) : ℚ :=
  if st.coherences.isEmpty then 0.5
  else (st.coherences.map Prod.snd).sum / st.coherences.length

/-- `SSTProtocol.MODES`. -/
def MODES : List String := ["basic", "deep-ask", "deep-auto"]

/-- The mutable fields of an `SSTProtocol` object that the claims touch. -/
structure SSTProtocol where
  mode : String
  stepsCompleted : List String := []
  currentClaim : Option String := none
  selfTest : SelfTestState := {}
  classification : Classification := {}
deriving DecidableEq, Repr

/-- `SSTProtocol.__init__`: `ValueError` unless the mode is one of `MODES`;
otherwise a fresh pipeline with empty step list and fresh components. -/
def SSTProtocol.init (mode : String) : Except String SSTProtocol :=
  if mode ∈ MODES then .ok { mode := mode }
  else .error ("Invalid mode '" ++ mode ++ "'. Choose from ('basic', 'deep-ask', 'deep-auto')")

/-- The current claim as the heuristics see it; before step 1 the Python
attribute is `None`, which every heuristic predicate treats exactly like the
empty string (falsy input). -/
def SSTProtocol.claimText (p : SSTProtocol) : String := p.currentClaim.getD ""

/-- `SSTProtocol.step1_formulate_statement`: store the claim and log the
step. -/
def SSTProtocol.step1_formulate_statement (p : SSTProtocol) (statement : String) :
    SSTProtocol :=
  { p with
    currentClaim := some statement
    stepsCompleted := p.stepsCompleted ++ ["step1_formulate_statement"] }

/-- `SSTProtocol.step2_extract_assumptions`: log the step, then extract
assumptions from the current claim. -/
def SSTProtocol.step2_extract_assumptions (p : SSTProtocol) : SSTProtocol :=
  { p with
    stepsCompleted := p.stepsCompleted ++ ["step2_extract_assumptions"]
    selfTest := p.selfTest.extractAssumptions [p.claimText] }

/-- `SSTProtocol.step3_identify_sources`: log the step (the returned tallies
and the deep-auto source-quality score feed only the report). -/
def SSTProtocol.step3_identify_sources (p : SSTProtocol) (_sources : List String) :
    SSTProtocol :=
  { p with stepsCompleted := p.stepsCompleted ++ ["step3_identify_sources"] }

/-- `SSTProtocol.step4_test_coherence`: log the step, re-extract assumptions
if none exist yet, evaluate coherence against the current claim, and return
the mean score. -/
def SSTProtocol.step4_test_coherence (p : SSTProtocol) : ℚ × SSTProtocol :=
  let p := { p with stepsCompleted := p.stepsCompleted ++ ["step4_test_coherence"] }
  let st :=
    if p.selfTest.assumptions.isEmpty then p.selfTest.extractAssumptions [p.claimText]
    else p.selfTest
  let st := st.evaluateCoherence [p.claimText]
  (st.getCoherenceScore, { p with selfTest := st })

/-- `SSTProtocol.step5_classify_claim`: log the step, take the coherence
factor from the heuristics (1.0 when no coherences were evaluated) and
classify. -/
def SSTProtocol.step5_classify_claim (p : SSTProtocol) (confidence : ℚ)
    (hasSources : Bool) : EpistemicState × SSTProtocol :=
  let p := { p with stepsCompleted := p.stepsCompleted ++ ["step5_classify_claim"] }
  let coherenceFactor := if p.selfTest.coherences.isEmpty then 1 else p.selfTest.getCoherenceScore
  let r := p.classification.classify_from_scores confidence hasSources coherenceFactor
  (r.1, { p with classification := r.2 })

/-- `SSTProtocol.step6_quantify_confidence`: log the step;
`min(len(sources) * 20, 50)` points from sources, averaged with the 0-100
coherence score, capped at 100. -/
def SSTProtocol.step6_quantify_confidence (p : SSTProtocol) (sources : List String)
    (coherenceScore : ℚ) : ℚ × SSTProtocol :=
  let p := { p with stepsCompleted := p.stepsCompleted ++ ["step6_quantify_confidence"] }
  let sourceScore : ℚ := min ((sources.length : ℚ) * 20) 50
  let confidence := (sourceScore + coherenceScore) / 2
  (min confidence 100, p)

/-- The report fields the claims consume: claim, mode, ordered completed-step
names, and from the nested per-step results the step-5 label and the step-6
confidence. -/
structure Report where
  claim : Option String
  mode : String
  stepsCompleted : List String
  label : EpistemicState
  confidence : ℚ
deriving DecidableEq, Repr

/-- `SSTProtocol.step7_generate_report`: log the step and assemble the
report (the mode-specific formatted text is external rendering). -/
def SSTProtocol.step7_generate_report (p : SSTProtocol) (label : EpistemicState)
    (confidence : ℚ) : Report × SSTProtocol :=
  let p := { p with stepsCompleted := p.stepsCompleted ++ ["step7_generate_report"] }
  (⟨p.currentClaim, p.mode, p.stepsCompleted, label, confidence⟩, p)

/-- `SSTProtocol.run_full_protocol`: reset the step list, heuristics and
state machine, then run steps 1, 2, 3, 4, 6, 5, 7 in that order. -/
def SSTProtocol.run_full_protocol (p : SSTProtocol) (statement : String)
    (sources : List String) (coherenceScore : ℚ) : Report × SSTProtocol :=
  let p := { p with stepsCompleted := [], selfTest := {}, classification := {} }
  let p := p.step1_formulate_statement statement
  let p := p.step2_extract_assumptions
  let p := p.step3_identify_sources sources
  let p := (p.step4_test_coherence).2
  let r6 := p.step6_quantify_confidence sources coherenceScore
  let confidence := r6.1
  let r5 := r6.2.step5_classify_claim confidence (!sources.isEmpty)
  r5.2.step7_generate_report r5.1 confidence

/-! Helper lemmas shared by the claim theorems. -/

theorem setStateOk_currentState (c : Classification) (s : EpistemicState) :
    (c.setStateOk s).currentState = some s := rfl

theorem setStateOk_reasons (c : Classification) (s : EpistemicState) :
    (c.setStateOk s).downgradeReasons = c.downgradeReasons := rfl

theorem downgradeCore_currentState (c : Classification) (old : EpistemicState)
    (r : Option String) :
    (c.downgradeCore old r).currentState = some (downgradeMap old) := by
  simp only [Classification.downgradeCore]
  split <;> rfl

theorem upgradeCore_currentState (c : Classification) (old : EpistemicState)
    (r : Option String) :
    (c.upgradeCore old r).currentState = some (upgradeMap old) := by
  simp only [Classification.upgradeCore]
  split <;> rfl

theorem downgradeOk_currentState (c : Classification) (r : Option String) :
    (c.downgradeOk r).currentState = c.currentState.map downgradeMap := by
  unfold Classification.downgradeOk
  cases hc : c.currentState with
  | none => simp [hc]
  | some old => simp [downgradeCore_currentState]

theorem downgradeMap_ne_FACT (s : EpistemicState) : downgradeMap s ≠ EpistemicState.FACT := by
  cases s <;> simp [downgradeMap]

theorem delta_setStateOk (c : Classification) (s : EpistemicState) :
    ∃ lh, (c.setStateOk s).stateHistory = c.stateHistory ++ lh ∧
      ∀ t ∈ lh, t.reason = "manual_set" := by
  cases hc : c.currentState with
  | none => exact ⟨[], by simp [Classification.setStateOk, hc], by simp⟩
  | some old =>
    exact ⟨[⟨old, s, "manual_set"⟩], by simp [Classification.setStateOk, hc], by simp⟩

theorem delta_downgradeOk (c : Classification) (r : Option String) :
    ∃ lh lr, (c.downgradeOk r).stateHistory = c.stateHistory ++ lh ∧
      (c.downgradeOk r).downgradeReasons = c.downgradeReasons ++ lr ∧
      (∀ t ∈ lh, t.reason = r.getD "downgrade") ∧
      (∀ x ∈ lr, r = some x) ∧ lr.length ≤ 1 := by
  unfold Classification.downgradeOk
  cases hc : c.currentState with
  | none => exact ⟨[], [], by simp, by simp, by simp, by simp, by simp⟩
  | some old =>
    cases old with
    | FACT =>
      refine ⟨[⟨.FACT, .HYP, r.getD "downgrade"⟩], r.toList, ?_, ?_, ?_, ?_, ?_⟩ <;>
        cases r <;> simp [Classification.downgradeCore, downgradeMap]
    | HYP =>
      refine ⟨[⟨.HYP, .UNK, r.getD "downgrade"⟩], r.toList, ?_, ?_, ?_, ?_, ?_⟩ <;>
        cases r <;> simp [Classification.downgradeCore, downgradeMap]
    | UNK =>
      refine ⟨[], [], ?_, ?_, ?_, ?_, ?_⟩ <;>
        simp [Classification.downgradeCore, downgradeMap]

theorem classifyLabel_FACT_hasSources (adj : ℚ) (hs : Bool) :
    classifyLabel adj hs = EpistemicState.FACT → hs = true := by
  unfold classifyLabel
  split_ifs with h1 h2 <;> intro h
  · exact h1.2
  · simp at h
  · simp at h

theorem evaluate_delta (c : Classification) (stmt : String) (sources : List String)
    (conf : ℚ) :
    ∃ lh lr,
      (c.evaluate_with_self_test stmt sources conf).1.stateHistory =
        c.stateHistory ++ lh ∧
      (c.evaluate_with_self_test stmt sources conf).1.downgradeReasons =
        c.downgradeReasons ++ lr ∧
      (∀ t ∈ lh, t.reason = "manual_set" ∨ t.reason = "Contains uncertainty indicators" ∨
        t.reason = "Low coherence score") ∧
      (∀ x ∈ lr, x = "Contains uncertainty indicators" ∨ x = "Low coherence score") ∧
      lr.length ≤ 2 := by
  simp only [Classification.evaluate_with_self_test]
  set A := analyzeStatement stmt with hA
  set s := classifyLabel (conf * A.coherenceScore) (!sources.isEmpty) with hs
  set c1 := c.setStateOk s with hc1
  set c2 := if A.hasUncertainty = true then
      c1.downgradeOk (some "Contains uncertainty indicators") else c1 with hc2
  have hbfalse : ¬(c2.currentState = some EpistemicState.FACT ∧ ¬(!sources.isEmpty) = true) := by
    rintro ⟨hfact, hnsrc⟩
    apply hnsrc
    by_cases hU : A.hasUncertainty = true
    · rw [hc2, if_pos hU, downgradeOk_currentState, hc1, setStateOk_currentState] at hfact
      simp only [Option.map_some'] at hfact
      exact absurd (Option.some.inj hfact) (downgradeMap_ne_FACT s)
    · rw [hc2, if_neg hU, hc1, setStateOk_currentState] at hfact
      exact classifyLabel_FACT_hasSources _ _ (hs ▸ Option.some.inj hfact)
  simp only [if_neg hbfalse]
  obtain ⟨lh1, e1, m1⟩ := delta_setStateOk c s
  have e1' : c1.stateHistory = c.stateHistory ++ lh1 := e1
  have er1 : c1.downgradeReasons = c.downgradeReasons := rfl
  by_cases hU : A.hasUncertainty = true
  · obtain ⟨lh2, lr2, e2, f2, m2, n2, len2⟩ :=
      delta_downgradeOk c1 (some "Contains uncertainty indicators")
    have ec2h : c2.stateHistory = c.stateHistory ++ (lh1 ++ lh2) := by
      rw [hc2, if_pos hU, e2, e1', List.append_assoc]
    have ec2r : c2.downgradeReasons = c.downgradeReasons ++ lr2 := by
      rw [hc2, if_pos hU, f2, er1]
    by_cases hCF : A.coherenceScore < 0.5
    · obtain ⟨lh3, lr3, e3, f3, m3, n3, len3⟩ :=
        delta_downgradeOk c2 (some "Low coherence score")
      refine ⟨lh1 ++ lh2 ++ lh3, lr2 ++ lr3, ?_, ?_, ?_, ?_, ?_⟩
      · rw [if_pos hCF, e3, ec2h]; simp [List.append_assoc]
      · rw [if_pos hCF, f3, ec2r]; simp [List.append_assoc]
      · intro t ht
        simp only [List.mem_append] at ht
        rcases ht with (ht | ht) | ht
        · exact Or.inl (m1 t ht)
        · exact Or.inr (Or.inl (by simpa using m2 t ht))
        · exact Or.inr (Or.inr (by simpa using m3 t ht))
      · intro x hx
        simp only [List.mem_append] at hx
        rcases hx with hx | hx
        · exact Or.inl (Option.some.inj (n2 x hx)).symm
        · exact Or.inr (Option.some.inj (n3 x hx)).symm
      · simp only [List.length_append]
        omega
    · refine ⟨lh1 ++ lh2, lr2, ?_, ?_, ?_, ?_, ?_⟩
      · rw [if_neg hCF, ec2h]
      · rw [if_neg hCF, ec2r]
      · intro t ht
        simp only [List.mem_append] at ht
        rcases ht with ht | ht
        · exact Or.inl (m1 t ht)
        · exact Or.inr (Or.inl (by simpa using m2 t ht))
      · intro x hx
        exact Or.inl (Option.some.inj (n2 x hx)).symm
      · omega
  · have ec2h : c2.stateHistory = c.stateHistory ++ lh1 := by rw [hc2, if_neg hU]; exact e1'
    have ec2r : c2.downgradeReasons = c.downgradeReasons := by rw [hc2, if_neg hU]; exact er1
    by_cases hCF : A.coherenceScore < 0.5
    · obtain ⟨lh3, lr3, e3, f3, m3, n3, len3⟩ :=
        delta_downgradeOk c2 (some "Low coherence score")
      refine ⟨lh1 ++ lh3, lr3, ?_, ?_, ?_, ?_, ?_⟩
      · rw [if_pos hCF, e3, ec2h]; simp [List.append_assoc]
      · rw [if_pos hCF, f3, ec2r]
      · intro t ht
        simp only [List.mem_append] at ht
        rcases ht with ht | ht
        · exact Or.inl (m1 t ht)
        · exact Or.inr (Or.inr (by simpa using m3 t ht))
      · intro x hx
        exact Or.inr (Option.some.inj (n3 x hx)).symm
      · omega
    · refine ⟨lh1, [], ?_, ?_, ?_, ?_, ?_⟩
      · rw [if_neg hCF]; exact ec2h
      · rw [if_neg hCF, ec2r, List.append_nil]
      · exact fun t ht => Or.inl (m1 t ht)
      · simp
      · simp

/-! Theorems for the claims. -/

/-- C1: `classify_from_scores` computes `effective = confidence * coherence`,
returns FACT when `effective ≥ 85` with sources, HYP when that fails but
`effective ≥ 50`, UNK otherwise, and sets the machine's current state to the
returned label; in particular (90, true, 1.0) gives FACT, (90, false, 1.0)
gives HYP, and (30, false, 1.0) gives UNK. -/
theorem classify_from_scores_spec :
    (∀ (c : Classification) (confidence coherence : ℚ) (hasSources : Bool),
      (c.classify_from_scores confidence hasSources coherence).1 =
        (if confidence * coherence ≥ 85 ∧ hasSources then EpistemicState.FACT
         else if confidence * coherence ≥ 50 then EpistemicState.HYP
         else EpistemicState.UNK) ∧
      (c.classify_from_scores confidence hasSources coherence).2.currentState =
        some (c.classify_from_scores confidence hasSources coherence).1) ∧
    (Classification.init.classify_from_scores 90 true 1).1 = EpistemicState.FACT ∧
    (Classification.init.classify_from_scores 90 false 1).1 = EpistemicState.HYP ∧
    (Classification.init.classify_from_scores 30 false 1).1 = EpistemicState.UNK := by
  refine ⟨fun c confidence coherence hasSources => ⟨rfl, rfl⟩, ?_, ?_, ?_⟩ <;>
    with_unfolding_all decide

/-- C5: `step6_quantify_confidence` returns
`min((min(len(sources) * 20, 50) + coherence_score) / 2, 100)`; for 2
sources and coherence 80 it returns 60, and for 5 sources and coherence 50
it returns 50 (the source contribution saturates at 50). -/
theorem step6_quantify_confidence_spec :
    (∀ (p : SSTProtocol) (sources : List String) (coherenceScore : ℚ),
      (p.step6_quantify_confidence sources coherenceScore).1 =
        min ((min ((sources.length : ℚ) * 20) 50 + coherenceScore) / 2) 100) ∧
    (({ mode := "basic" } : SSTProtocol).step6_quantify_confidence ["A", "B"] 80).1 = 60 ∧
    (({ mode := "basic" } : SSTProtocol).step6_quantify_confidence
      ["A", "B", "C", "D", "E"] 50).1 = 50 := by
  refine ⟨fun p sources coherenceScore => rfl, ?_, ?_⟩ <;> with_unfolding_all decide

/-- C7: end-to-end through `run_full_protocol`, the water-boiling claim with
3 sources and initial coherence 100 yields confidence 75 and label HYP, and
the dark-matter claim with 0 sources and initial coherence 60 yields
confidence 30 and label UNK. -/
theorem run_full_protocol_examples :
    ((SSTProtocol.init "basic").toOption.map fun p =>
        ((p.run_full_protocol "Water boils at 100 degrees Celsius at sea level."
            ["A", "B", "C"] 100).1.confidence,
         (p.run_full_protocol "Water boils at 100 degrees Celsius at sea level."
            ["A", "B", "C"] 100).1.label)) = some (75, EpistemicState.HYP) ∧
    ((SSTProtocol.init "basic").toOption.map fun p =>
        ((p.run_full_protocol "Dark matter exists." [] 60).1.confidence,
         (p.run_full_protocol "Dark matter exists." [] 60).1.label)) =
      some (30, EpistemicState.UNK) := by
  with_unfolding_all decide

theorem clamp_mem (q : ℚ) : 0 ≤ max 0 (min 1 q) ∧ max 0 (min 1 q) ≤ 1 :=
  ⟨le_max_left 0 _, max_le zero_le_one (min_le_left 1 q)⟩

theorem stateOfString_eq_none_iff (s : String) :
    stateOfString s = none ↔ s ∉ (["FACT", "HYP", "UNK"] : List String) := by
  unfold stateOfString
  split <;> simp_all

/-- C2 counterexample: on the empty assumption the code short-circuits to
0.0 while the claimed start-at-1.0 computation would clamp to 1.0, so the
claimed formula does not describe `calculate_coherence` on every string. -/
theorem calculate_coherence_empty_cex :
    calculateCoherence "" [] = 0 ∧ coherenceClaimFormula "" [] = 1 ∧
      ¬ calculateCoherence "" [] = coherenceClaimFormula "" [] := by
  with_unfolding_all decide

/-- C2 (amended): `calculate_coherence` always lands in [0, 1], and on every
non-empty assumption it equals the claimed computation (start at 1.0,
hedging and contradiction penalties, length bonus, context-cross penalty,
one final clamp); the empty assumption instead returns 0.0 immediately. -/
theorem calculate_coherence_spec :
    ∀ (a : String) (ctx : List String),
      0 ≤ calculateCoherence a ctx ∧ calculateCoherence a ctx ≤ 1 ∧
      (a.isEmpty = false → calculateCoherence a ctx = coherenceClaimFormula a ctx) := by
  intro a ctx
  by_cases h : a.isEmpty
  · refine ⟨?_, ?_, fun hne => absurd h (by simp [hne])⟩ <;> simp [calculateCoherence, h]
  · have h' : a.isEmpty = false := by simpa using h
    refine ⟨?_, ?_, fun _ => ?_⟩
    · simp only [calculateCoherence, h', Bool.false_eq_true, if_false]
      exact (clamp_mem _).1
    · simp only [calculateCoherence, h', Bool.false_eq_true, if_false]
      exact (clamp_mem _).2
    · simp only [calculateCoherence, coherenceClaimFormula, h', Bool.false_eq_true, if_false]

/-- C2 witness: the amended equality evaluated on a concrete non-empty
assumption. -/
theorem calculate_coherence_spec_witness :
    calculateCoherence "Dark matter exists." [] =
      coherenceClaimFormula "Dark matter exists." [] :=
  (calculate_coherence_spec "Dark matter exists." []).2.2 (by decide)

/-- C3 counterexample: a `set_state` call that leaves the state unchanged
still appends a history record — after setting FACT twice from fresh, the
history holds one record whose from- and to-state are both FACT, so the
no-op call appended a record. -/
theorem set_state_noop_appends_cex :
    ((Classification.init.set_state "FACT").toOption.bind fun c =>
        (c.set_state "FACT").toOption) =
      some { currentState := some EpistemicState.FACT,
             stateHistory := [⟨EpistemicState.FACT, EpistemicState.FACT, "manual_set"⟩],
             downgradeReasons := [] } := by
  with_unfolding_all decide

/-- C3 (amended): `downgrade_state` and `upgrade_state` append exactly one
record per actual transition and none when the state is unchanged (floor and
ceiling included), but `set_state` appends one record whenever a prior state
existed — even when the new state equals the current one. -/
theorem transition_history_spec :
    ∀ (c : Classification) (s old : EpistemicState) (r : Option String),
      ((c.setStateOk s).stateHistory =
        c.stateHistory ++
          (match c.currentState with
           | some o => [⟨o, s, "manual_set"⟩]
           | none => [])) ∧
      (c.currentState = some old →
        (∃ c', c.downgrade_state r = .ok (downgradeMap old, c') ∧
          c'.stateHistory = c.stateHistory ++
            (if old = downgradeMap old then []
             else [⟨old, downgradeMap old, r.getD "downgrade"⟩])) ∧
        (∃ c', c.upgrade_state r = .ok (upgradeMap old, c') ∧
          c'.stateHistory = c.stateHistory ++
            (if old = upgradeMap old then []
             else [⟨old, upgradeMap old, r.getD "upgrade"⟩]))) := by
  intro c s old r
  constructor
  · cases hc : c.currentState <;> simp [Classification.setStateOk, hc]
  · intro h
    constructor
    · refine ⟨c.downgradeCore old r, ?_, ?_⟩
      · simp [Classification.downgrade_state, h]
      · simp only [Classification.downgradeCore]
        cases old <;> simp [downgradeMap]
    · refine ⟨c.upgradeCore old r, ?_, ?_⟩
      · simp [Classification.upgrade_state, h]
      · simp only [Classification.upgradeCore]
        cases old <;> simp [upgradeMap]

/-- C3 witness: the amended downgrade characterization evaluated at a
machine currently in HYP. -/
theorem transition_history_spec_witness :
    ∃ c', (Classification.init.setStateOk EpistemicState.HYP).downgrade_state none =
        .ok (downgradeMap EpistemicState.HYP, c') ∧
      c'.stateHistory =
        (Classification.init.setStateOk EpistemicState.HYP).stateHistory ++
          (if EpistemicState.HYP = downgradeMap EpistemicState.HYP then []
           else [⟨EpistemicState.HYP, downgradeMap EpistemicState.HYP,
                  (none : Option String).getD "downgrade"⟩]) :=
  (((transition_history_spec (Classification.init.setStateOk EpistemicState.HYP)
      EpistemicState.FACT EpistemicState.HYP none).2 rfl).1)

/-- C4: from any set state, `downgrade_state` and `upgrade_state` move along
the fixed order by at most one step, are idempotent at the UNK floor and the
FACT ceiling, never leave {FACT, HYP, UNK}, and downgrading twice agrees
with downgrading once from the successor state. -/
theorem downgrade_upgrade_bounded :
    ∀ (c : Classification) (old : EpistemicState) (r r' : Option String),
      c.currentState = some old →
      (∃ c', c.downgrade_state r = .ok (downgradeMap old, c') ∧
        c'.currentState = some (downgradeMap old)) ∧
      (∃ c', c.upgrade_state r = .ok (upgradeMap old, c') ∧
        c'.currentState = some (upgradeMap old)) ∧
      (old = EpistemicState.UNK → downgradeMap old = EpistemicState.UNK) ∧
      (old = EpistemicState.FACT → upgradeMap old = EpistemicState.FACT) ∧
      stateValue old - 1 ≤ stateValue (downgradeMap old) ∧
      stateValue (downgradeMap old) ≤ stateValue old ∧
      stateValue old ≤ stateValue (upgradeMap old) ∧
      stateValue (upgradeMap old) ≤ stateValue old + 1 ∧
      ((c.downgradeOk r).downgradeOk r').currentState =
        ((c.setStateOk (downgradeMap old)).downgradeOk r').currentState ∧
      downgradeMap old ∈ [EpistemicState.FACT, EpistemicState.HYP, EpistemicState.UNK] ∧
      upgradeMap old ∈ [EpistemicState.FACT, EpistemicState.HYP, EpistemicState.UNK] := by
  intro c old r r' h
  refine ⟨⟨c.downgradeCore old r, by simp [Classification.downgrade_state, h],
      downgradeCore_currentState c old r⟩,
    ⟨c.upgradeCore old r, by simp [Classification.upgrade_state, h],
      upgradeCore_currentState c old r⟩, ?_, ?_, ?_, ?_, ?_, ?_, ?_, ?_, ?_⟩
  · cases old <;> simp [downgradeMap]
  · cases old <;> simp [upgradeMap]
  · cases old <;> simp [downgradeMap, stateValue]
  · cases old <;> simp [downgradeMap, stateValue]
  · cases old <;> simp [upgradeMap, stateValue]
  · cases old <;> simp [upgradeMap, stateValue]
  · simp [downgradeOk_currentState, h, Classification.setStateOk]
  · cases old <;> simp [downgradeMap]
  · cases old <;> simp [upgradeMap]

/-- C4 witness: the bounded-transition properties evaluated at a machine
currently in FACT. -/
theorem downgrade_upgrade_bounded_witness :
    ∃ c', (Classification.init.setStateOk EpistemicState.FACT).downgrade_state none =
        .ok (downgradeMap EpistemicState.FACT, c') ∧
      c'.currentState = some (downgradeMap EpistemicState.FACT) :=
  ((downgrade_upgrade_bounded (Classification.init.setStateOk EpistemicState.FACT)
      EpistemicState.FACT none none) rfl).1

/-- C9: constructing a pipeline fails exactly on a mode outside the three
modes (no pipeline value is produced); `set_state` fails exactly when its
argument is not FACT, HYP or UNK; and `downgrade_state` / `upgrade_state`
fail exactly when no current state has been set. -/
theorem error_taxonomy :
    (∀ m : String, (∃ e, SSTProtocol.init m = .error e) ↔ m ∉ MODES) ∧
    (∀ (c : Classification) (s : String),
      (∃ e, c.set_state s = .error e) ↔ s ∉ (["FACT", "HYP", "UNK"] : List String)) ∧
    (∀ (c : Classification) (r : Option String),
      (∃ e, c.downgrade_state r = .error e) ↔ c.currentState = none) ∧
    (∀ (c : Classification) (r : Option String),
      (∃ e, c.upgrade_state r = .error e) ↔ c.currentState = none) := by
  refine ⟨?_, ?_, ?_, ?_⟩
  · intro m
    unfold SSTProtocol.init
    by_cases h : m ∈ MODES <;> simp [h]
  · intro c s
    rcases hst : stateOfString s with _ | st
    · simp [Classification.set_state, hst, (stateOfString_eq_none_iff s).mp hst]
    · have hmem : s ∈ (["FACT", "HYP", "UNK"] : List String) := by
        by_contra hm
        rw [(stateOfString_eq_none_iff s).mpr hm] at hst
        cases hst
      simp [Classification.set_state, hst, hmem]
  · intro c r
    cases hc : c.currentState <;> simp [Classification.downgrade_state, hc]
  · intro c r
    cases hc : c.currentState <;> simp [Classification.upgrade_state, hc]

/-- C6: `run_full_protocol` resets the step list, heuristics and state
machine, then runs the stages in the fixed order 1, 2, 3, 4, 6, 5, 7 — so
the report's completed-steps list always names the seven stages in that
order, and a second run on the same pipeline returns the same report
whatever an earlier run left behind. -/
theorem run_full_protocol_order_and_reset :
    ∀ (p : SSTProtocol) (s1 s2 : String) (src1 src2 : List String) (ch1 ch2 : ℚ),
      (p.run_full_protocol s2 src2 ch2).1.stepsCompleted =
        ["step1_formulate_statement", "step2_extract_assumptions",
         "step3_identify_sources", "step4_test_coherence",
         "step6_quantify_confidence", "step5_classify_claim",
         "step7_generate_report"] ∧
      ((p.run_full_protocol s1 src1 ch1).2.run_full_protocol s2 src2 ch2).1 =
        (p.run_full_protocol s2 src2 ch2).1 := by
  intro p s1 s2 src1 src2 ch1 ch2
  exact ⟨rfl, rfl⟩

/-- C8: `evaluate_with_self_test` computes the adjusted confidence as
`initial_confidence * coherence_factor` from a fresh analysis, picks the
initial state by the classify_from_scores threshold rule on the adjusted
value and source presence, then runs the three downgrade checks in the
fixed order (uncertainty, still-FACT-without-sources, low coherence), each
evaluated unconditionally, so that at most two downgrade reasons accumulate
in one call; the returned final state is the machine state after the
checks. -/
theorem evaluate_with_self_test_spec :
    ∀ (c : Classification) (stmt : String) (sources : List String) (conf : ℚ),
      (c.evaluate_with_self_test stmt sources conf).1.adjustedConfidence =
        conf * (analyzeStatement stmt).coherenceScore ∧
      (c.evaluate_with_self_test stmt sources conf).2 =
        (let cf := (analyzeStatement stmt).coherenceScore
         let c1 := (c.classify_from_scores (conf * cf) (!sources.isEmpty) 1).2
         let c2 := if (analyzeStatement stmt).hasUncertainty then
             c1.downgradeOk (some "Contains uncertainty indicators")
           else c1
         let c3 := if c2.currentState = some EpistemicState.FACT ∧ ¬(!sources.isEmpty : Bool) then
             c2.downgradeOk (some "FACT claim lacks sources")
           else c2
         if cf < 0.5 then c3.downgradeOk (some "Low coherence score") else c3) ∧
      (c.evaluate_with_self_test stmt sources conf).1.finalState =
        (c.evaluate_with_self_test stmt sources conf).2.currentState ∧
      (c.evaluate_with_self_test stmt sources conf).1.downgradeReasons.length ≤
        c.downgradeReasons.length + 2 := by
  intro c stmt sources conf
  refine ⟨rfl, ?_, rfl, ?_⟩
  · simp only [Classification.evaluate_with_self_test, Classification.classify_from_scores,
      mul_one]
  · obtain ⟨lh, lr, eh, er, mh, mr, len⟩ := evaluate_delta c stmt sources conf
    rw [er, List.length_append]
    omega

/-- C10: the still-FACT-without-sources downgrade check in
`evaluate_with_self_test` never fires: everything the call appends to the
downgrade reasons and to the state history omits the reason "FACT claim
lacks sources", because FACT is chosen as initial state only with sources
present and the uncertainty check can only move the state away from FACT. -/
theorem check_b_never_fires :
    ∀ (c : Classification) (stmt : String) (sources : List String) (conf : ℚ),
      ∃ lh lr,
        (c.evaluate_with_self_test stmt sources conf).1.stateHistory =
          c.stateHistory ++ lh ∧
        (c.evaluate_with_self_test stmt sources conf).1.downgradeReasons =
          c.downgradeReasons ++ lr ∧
        "FACT claim lacks sources" ∉ lr ∧
        "FACT claim lacks sources" ∉ lh.map TransitionRecord.reason := by
  intro c stmt sources conf
  obtain ⟨lh, lr, eh, er, mh, mr, _⟩ := evaluate_delta c stmt sources conf
  refine ⟨lh, lr, eh, er, ?_, ?_⟩
  · intro hmem
    rcases mr _ hmem with h | h <;> simp at h
  · intro hmem
    simp only [List.mem_map] at hmem
    obtain ⟨t, ht, hre⟩ := hmem
    rcases mh t ht with h | h | h <;> rw [hre] at h <;> simp at h

end SST
